import Mathlib

/-!
Shallow embedding of `health.go` (package tchannel): active TChannel
connection health checks.  The file embeds `HealthCheckOptions` with its
`enabled` and `withDefaults` methods, the `healthCheck` run loop of
`Connection`, and `stophealthCheck`, and proves theorems about them.

The run loop is embedded as a trace semantics: the environment supplies a
finite list of `LoopEvent`s (each event is one completion of the `select`
at the top of the loop: either the ticker fired and the subsequent `ping`
returned a given result, or the quit channel was closed).  The loop body is
a deterministic state transformer on `MState`; once the Go function has
returned, later events change nothing.
-/

/-- Go `time.Duration` is a signed 64-bit count of nanoseconds.  The claims
never exercise 64-bit overflow, so it is modelled as `Int`. -/
abbrev Duration := Int

/-- Go `time.Second` in nanoseconds. -/
def timeSecond : Duration := 1000000000

/-- Constant `_defaultHealthCheckTimeout = time.Second` (health.go:31). -/
def defaultHealthCheckTimeout : Duration := timeSecond

/-- Constant `_defaultHealthCheckFailuresToClose = 5` (health.go:32). -/
def defaultHealthCheckFailuresToClose : Int := 5

/-- Struct `HealthCheckOptions` (health.go:38-50).  `FailuresToClose` is a Go
`int`, modelled as `Int`. -/
structure HealthCheckOptions where
  Interval : Duration
  Timeout : Duration
  FailuresToClose : Int
  deriving DecidableEq

/-- Method `(hco HealthCheckOptions) enabled() bool` (health.go:52-54):
`return hco.Interval > 0`. -/
def HealthCheckOptions.enabled (hco : HealthCheckOptions) : Bool :=
  hco.Interval > 0

/-- Method `(hco HealthCheckOptions) withDefaults()` (health.go:56-64).  The
receiver is passed by value in Go, so the function is pure: it returns an
updated copy and cannot mutate the caller's value. -/
def HealthCheckOptions.withDefaults (hco : HealthCheckOptions) : HealthCheckOptions :=
  let hco1 := if hco.Timeout = 0 then { hco with Timeout := defaultHealthCheckTimeout } else hco
  let hco2 :=
    if hco1.FailuresToClose = 0 then
      { hco1 with FailuresToClose := defaultHealthCheckFailuresToClose }
    else hco1
  hco2

/-- Result of one `c.ping(ctx)` call as observed by `healthCheck`
(health.go:86): success, the sentinel `ErrInvalidConnectionState`, or any
other error carrying its message. -/
inductive PingResult where
  | ok
  | errInvalidConnectionState
  | err (msg : String)
  deriving DecidableEq

/-- One completion of the `select` at the top of the loop (health.go:76-80):
either the ticker fired (and the probe issued afterwards returned the given
`PingResult`), or `healthCheckQuit` was closed. -/
inductive LoopEvent where
  | tick (r : PingResult)
  | quit
  deriving DecidableEq

/-- Observable state of one execution of `healthCheck`.

* `consecutiveFailures` — the local counter (health.go:74), a Go `int`.
* `pendingCancels` — per-probe `context` cancellation functions registered
  with `defer cancel()` (health.go:83) that have not yet run.  `defer` in Go
  runs at function exit, not at the end of the loop iteration, so this
  count only grows while the loop runs.
* `reports` — messages passed to `c.connectionError` (health.go:98), in order.
* `closes` — `(reason, err)` pairs passed to `c.close` (health.go:101-104).
* `probes` — number of `c.ping` calls issued.
* `waits` — snapshot of `pendingCancels` taken each time the loop sits at
  the `select` and an event arrives (one entry per completed wait).
* `tickerStopped` — whether the deferred `ticker.Stop()` (health.go:72) has
  run; it runs exactly when the function returns.
* `returned` — whether `healthCheck` has returned. -/
structure MState where
  consecutiveFailures : Int
  pendingCancels : Nat
  reports : List String
  closes : List (String × String)
  probes : Nat
  waits : List Nat
  tickerStopped : Bool
  returned : Bool
  deriving DecidableEq

/-- State at entry of the loop (health.go:71-75): fresh ticker (not yet
stopped), counter zero, nothing reported, closed, probed or deferred. -/
def healthCheckInit : MState :=
  { consecutiveFailures := 0
    pendingCancels := 0
    reports := []
    closes := []
    probes := 0
    waits := []
    tickerStopped := false
    returned := false }

/-- One iteration of the `for` loop (health.go:75-107), as a function of the
event that completed the `select`.  When the function has already returned,
nothing further happens.  Each branch records the cumulative effect of that
iteration:

* `quit` (health.go:78-79): return; the deferred `ticker.Stop()` runs.
* `tick ok` (health.go:82-90): register one `defer cancel()`, ping, reset
  the counter to 0, continue.
* `tick errInvalidConnectionState` (health.go:92-96): register one
  `defer cancel()`, ping, return without reporting, incrementing or closing.
* `tick (err m)` (health.go:98-106): register one `defer cancel()`, ping,
  report `"healthCheck failed: " ++ m`, increment the counter; if the
  counter now reaches `FailuresToClose`, close the connection with reason
  `"health check failure"` and the triggering error, and return. -/
def healthCheckStep (opts : HealthCheckOptions) (s : MState) (e : LoopEvent) : MState :=
  if s.returned then s else
  match e with
  | LoopEvent.quit =>
      { s with waits := s.waits ++ [s.pendingCancels]
               tickerStopped := true
               returned := true }
  | LoopEvent.tick PingResult.ok =>
      { s with waits := s.waits ++ [s.pendingCancels]
               pendingCancels := s.pendingCancels + 1
               probes := s.probes + 1
               consecutiveFailures := 0 }
  | LoopEvent.tick PingResult.errInvalidConnectionState =>
      { s with waits := s.waits ++ [s.pendingCancels]
               pendingCancels := s.pendingCancels + 1
               probes := s.probes + 1
               tickerStopped := true
               returned := true }
  | LoopEvent.tick (PingResult.err m) =>
      if s.consecutiveFailures + 1 ≥ opts.FailuresToClose then
        { s with waits := s.waits ++ [s.pendingCancels]
                 pendingCancels := s.pendingCancels + 1
                 probes := s.probes + 1
                 reports := s.reports ++ ["healthCheck failed: " ++ m]
                 consecutiveFailures := s.consecutiveFailures + 1
                 closes := s.closes ++ [("health check failure", m)]
                 tickerStopped := true
                 returned := true }
      else
        { s with waits := s.waits ++ [s.pendingCancels]
                 pendingCancels := s.pendingCancels + 1
                 probes := s.probes + 1
                 reports := s.reports ++ ["healthCheck failed: " ++ m]
                 consecutiveFailures := s.consecutiveFailures + 1 }

/-- Method `(c *Connection) healthCheck(connID uint32)` (health.go:68-108),
run on a finite trace of events.  `connID` is accepted on the stack purely
for debugging (health.go:67) and is not used by the body.  `opts` is
`c.opts.HealthChecks` read verbatim at health.go:69 (no `withDefaults`). -/
def healthCheck (connID : Nat) (opts : HealthCheckOptions) (events : List LoopEvent) : MState :=
  events.foldl (healthCheckStep opts) healthCheckInit

/-- Spec-side function: the length of the trailing run of failures since the
most recent success (or since the start), for a sequence of probe outcomes
that contains no sentinel. -/
def trailingFailures (rs : List PingResult) : Nat :=
  rs.foldl (fun acc r => if r = PingResult.ok then 0 else acc + 1) 0

/-- Observable state touched by `stophealthCheck` (health.go:110-118).

* `healthCheckStopped` — the `atomic.Bool` field of `Connection`.
* `quitCloses` — number of `close(c.healthCheckQuit)` calls executed.
* `debugLogs` — number of `c.log.Debug` calls executed.
* `connCloses` — number of `c.close` calls on the connection; listed to
  show `stophealthCheck` never touches it. -/
structure StopState where
  healthCheckStopped : Bool
  quitCloses : Nat
  debugLogs : Nat
  connCloses : Nat
  deriving DecidableEq

/-- State before any `stophealthCheck` call on a fresh monitor. -/
def stopStateInit : StopState :=
  { healthCheckStopped := false, quitCloses := 0, debugLogs := 0, connCloses := 0 }

/-- Method `(c *Connection) stophealthCheck()` (health.go:110-118).
`c.healthCheckStopped.Swap(true)` atomically sets the flag and returns the
previous value; if it was already set the call returns at once, otherwise
the debug log line runs and `healthCheckQuit` is closed. -/
def stophealthCheck (s : StopState) : StopState :=
  if s.healthCheckStopped then
    { s with healthCheckStopped := true }
  else
    { s with healthCheckStopped := true
             debugLogs := s.debugLogs + 1
             quitCloses := s.quitCloses + 1 }

/-- Options of the worked scenario in the spec: `failuresToClose = 3` (the
other fields are arbitrary positive values). -/
def scenarioOpts : HealthCheckOptions :=
  { Interval := 100, Timeout := timeSecond, FailuresToClose := 3 }

/-- Probe outcomes of the worked scenario: fail, fail, success, fail, fail,
fail. -/
def scenarioOutcomes : List PingResult :=
  [PingResult.err "e1", PingResult.err "e2", PingResult.ok,
   PingResult.err "e3", PingResult.err "e4", PingResult.err "e5"]

/-- Event trace of the worked scenario: six ticker fires with the outcomes
of `scenarioOutcomes`. -/
def scenarioEvents : List LoopEvent :=
  scenarioOutcomes.map LoopEvent.tick

/-- Combined step invariant of the loop: the deferred `ticker.Stop()` has run
exactly when the function has returned; while the loop is live no close has
been issued; at most one close is ever issued; every close carries the
reason `"health check failure"`. -/
def StepInv (s : MState) : Prop :=
  s.tickerStopped = s.returned ∧
  (s.returned = false → s.closes = []) ∧
  s.closes.length ≤ 1 ∧
  (∀ p ∈ s.closes, p.1 = "health check failure")

/-! ## Helper lemmas -/

/-- Once `healthCheck` has returned, a further event changes nothing. -/
theorem healthCheckStep_of_returned (opts : HealthCheckOptions) (s : MState) (e : LoopEvent)
    (h : s.returned = true) : healthCheckStep opts s e = s := by
  simp [healthCheckStep, h]

/-- Once `healthCheck` has returned, a further trace of events changes
nothing. -/
theorem foldl_healthCheckStep_of_returned (opts : HealthCheckOptions) (s : MState)
    (h : s.returned = true) :
    ∀ l : List LoopEvent, List.foldl (healthCheckStep opts) s l = s := by
  intro l
  induction l with
  | nil => rfl
  | cons e l ih =>
      rw [List.foldl_cons, healthCheckStep_of_returned opts s e h, ih]

/-- Running `healthCheck` on an extended trace continues from the state the
shorter trace reached. -/
theorem healthCheck_append (connID : Nat) (opts : HealthCheckOptions)
    (l l' : List LoopEvent) :
    healthCheck connID opts (l ++ l') =
      List.foldl (healthCheckStep opts) (healthCheck connID opts l) l' := by
  simp [healthCheck, List.foldl_append]

/-- If the loop returned on a trace, extending the trace changes nothing. -/
theorem healthCheck_append_of_returned (connID : Nat) (opts : HealthCheckOptions)
    (l l' : List LoopEvent) (h : (healthCheck connID opts l).returned = true) :
    healthCheck connID opts (l ++ l') = healthCheck connID opts l := by
  rw [healthCheck_append, foldl_healthCheckStep_of_returned _ _ h]

theorem stepInv_step (opts : HealthCheckOptions) (s : MState) (e : LoopEvent)
    (h : StepInv s) : StepInv (healthCheckStep opts s e) := by
  obtain ⟨h1, h2, h3, h4⟩ := h
  by_cases hr : s.returned = true
  · rw [healthCheckStep_of_returned opts s e hr]; exact ⟨h1, h2, h3, h4⟩
  · replace hr : s.returned = false := by simpa using hr
    have hc : s.closes = [] := h2 hr
    cases e with
    | quit => simp [healthCheckStep, hr, StepInv, hc]
    | tick r =>
        cases r with
        | ok => simp [healthCheckStep, hr, StepInv, hc, h1]
        | errInvalidConnectionState => simp [healthCheckStep, hr, StepInv, hc]
        | err m =>
            by_cases ht : s.consecutiveFailures + 1 ≥ opts.FailuresToClose
            · simp [healthCheckStep, hr, ht, StepInv, hc]
            · simp [healthCheckStep, hr, ht, StepInv, hc, h1]

theorem stepInv_foldl (opts : HealthCheckOptions) (s : MState) (h : StepInv s) :
    ∀ l : List LoopEvent, StepInv (List.foldl (healthCheckStep opts) s l) := by
  intro l
  induction l generalizing s with
  | nil => exact h
  | cons e l ih => exact ih _ (stepInv_step opts s e h)

theorem stepInv_healthCheck (connID : Nat) (opts : HealthCheckOptions)
    (events : List LoopEvent) : StepInv (healthCheck connID opts events) := by
  have hinit : StepInv healthCheckInit := by
    refine ⟨rfl, fun _ => rfl, by simp [healthCheckInit], by simp [healthCheckInit]⟩
  exact stepInv_foldl opts healthCheckInit hinit events

/-! ## Claim theorems -/

/-- Claim C6: for every `HealthCheckOptions` value, `withDefaults` returns a
new value in which `Timeout` is one second (`time.Second`, here
`defaultHealthCheckTimeout`) when the input `Timeout` was zero and is
unchanged otherwise, `FailuresToClose` is `5` when the input was zero and is
unchanged otherwise, and `Interval` always equals the input `Interval`.  The
Go receiver is a value, so the caller's original is never mutated and the
function is pure; in this embedding that is inherent. -/
theorem withDefaults_spec (hco : HealthCheckOptions) :
    hco.withDefaults.Interval = hco.Interval ∧
    hco.withDefaults.Timeout =
      (if hco.Timeout = 0 then defaultHealthCheckTimeout else hco.Timeout) ∧
    hco.withDefaults.FailuresToClose =
      (if hco.FailuresToClose = 0 then defaultHealthCheckFailuresToClose
       else hco.FailuresToClose) ∧
    defaultHealthCheckTimeout = timeSecond ∧
    defaultHealthCheckFailuresToClose = 5 := by
  refine ⟨?_, ?_, ?_, rfl, rfl⟩ <;>
    · simp only [HealthCheckOptions.withDefaults]
      split <;> split <;> simp_all

/-- Claim C7: `enabled` returns `true` iff `Interval > 0`, regardless of the
other fields (the statement quantifies over all three fields); in particular
it is `false` whenever `Interval = 0`. -/
theorem enabled_iff_interval_pos (hco : HealthCheckOptions) :
    (hco.enabled = true ↔ 0 < hco.Interval) ∧ (hco.Interval = 0 → hco.enabled = false) := by
  constructor
  · simp [HealthCheckOptions.enabled]
  · intro h; simp [HealthCheckOptions.enabled, h]

/-- Claim C8: the recurring ticker is stopped on every exit path of the loop
and only then: after processing any trace, the deferred `ticker.Stop()` has
run exactly when `healthCheck` has returned — this covers exit via the stop
signal, via the sentinel invalid-connection error, and via the
threshold-triggered close. -/
theorem ticker_stopped_iff_returned (connID : Nat) (opts : HealthCheckOptions)
    (events : List LoopEvent) :
    (healthCheck connID opts events).tickerStopped = (healthCheck connID opts events).returned :=
  (stepInv_healthCheck connID opts events).1

/-- Claim C9: the `connID` argument of `healthCheck` has no behavioral
effect: for any two connection identifiers and the same options and event
trace, the resulting states (counter, probes, reports, closes, resource
bookkeeping, termination) are identical. -/
theorem connID_no_behavioral_effect (id1 id2 : Nat) (opts : HealthCheckOptions)
    (events : List LoopEvent) :
    healthCheck id1 opts events = healthCheck id2 opts events := rfl

/-- Claim C1 is false of the code: the per-probe cancellation resource is
registered with `defer cancel()` inside the loop (health.go:83), so it is
released only when the whole function exits, not after each probe attempt.
Evaluating the loop on three successful probes followed by a stop signal,
the numbers of unreleased per-probe cancellation resources observed at the
four wait points are 0, 1, 2, 3 — the count grows by one per iteration
instead of being zero at every wait point as the claim states. -/
theorem healthCheck_deferred_cancels_accumulate :
    (healthCheck 1 { Interval := 100, Timeout := timeSecond, FailuresToClose := 5 }
        [LoopEvent.tick PingResult.ok, LoopEvent.tick PingResult.ok,
         LoopEvent.tick PingResult.ok, LoopEvent.quit]).waits = [0, 1, 2, 3] ∧
    ¬ (∀ w ∈ (healthCheck 1 { Interval := 100, Timeout := timeSecond, FailuresToClose := 5 }
        [LoopEvent.tick PingResult.ok, LoopEvent.tick PingResult.ok,
         LoopEvent.tick PingResult.ok, LoopEvent.quit]).waits, w = 0) := by
  decide

/-- Claim C10: `healthCheck` reads the stored options verbatim
(health.go:69) and never applies `withDefaults`; consequently when the
stored `FailuresToClose` is zero or negative, the very first non-sentinel
probe failure already satisfies the threshold check and closes the
connection. -/
theorem healthCheck_no_defaults_first_failure_closes (opts : HealthCheckOptions)
    (h : opts.FailuresToClose ≤ 0) (connID : Nat) (m : String) :
    (healthCheck connID opts [LoopEvent.tick (PingResult.err m)]).closes =
      [("health check failure", m)] ∧
    (healthCheck connID opts [LoopEvent.tick (PingResult.err m)]).returned = true := by
  have hc1 : opts.FailuresToClose ≤ 1 := by omega
  constructor <;>
    simp [healthCheck, healthCheckStep, healthCheckInit, hc1]

/-- Witness for C10 at `FailuresToClose = 0`. -/
theorem healthCheck_no_defaults_first_failure_closes_witness :
    (healthCheck 9 { Interval := 5, Timeout := 0, FailuresToClose := 0 }
        [LoopEvent.tick (PingResult.err "boom")]).closes =
      [("health check failure", "boom")] :=
  (healthCheck_no_defaults_first_failure_closes
    { Interval := 5, Timeout := 0, FailuresToClose := 0 } (by decide) 9 "boom").1

/-- Calling `stophealthCheck` on an already-stopped monitor performs no
operation: `Swap(true)` returns `true` and the function returns at once. -/
theorem stophealthCheck_noop (s : StopState) (h : s.healthCheckStopped = true) :
    stophealthCheck s = s := by
  cases s
  simp_all [stophealthCheck]

/-- Any first call leaves the stopped flag set. -/
theorem stophealthCheck_sets_flag (s : StopState) :
    (stophealthCheck s).healthCheckStopped = true := by
  by_cases h : s.healthCheckStopped = true <;> simp [stophealthCheck, h]

/-- Iterating `stophealthCheck` at least once from a fresh monitor is the
same as calling it once. -/
theorem stophealthCheck_iterate (n : Nat) (h : 1 ≤ n) :
    stophealthCheck^[n] stopStateInit = stophealthCheck stopStateInit := by
  induction n with
  | zero => omega
  | succ k ih =>
      rcases Nat.eq_or_lt_of_le h with h1 | h1
      · rw [← h1, Function.iterate_one]
      · have hk : 1 ≤ k := by omega
        rw [Function.iterate_succ_apply', ih hk,
            stophealthCheck_noop _ (stophealthCheck_sets_flag stopStateInit)]

/-- Claim C5: `stophealthCheck` is an idempotent one-shot.  Calling it `n ≥ 1`
times from a fresh monitor closes the quit channel exactly once (gated by the
atomic flag's single false-to-true transition), every call after the first
performs no operation (the resulting state is that of a single call, and any
call on a stopped monitor is the identity), and no `c.close` of the
connection is ever attributable to `stophealthCheck` itself. -/
theorem stophealthCheck_idempotent_once (n : Nat) (h : 1 ≤ n) :
    (stophealthCheck^[n] stopStateInit).quitCloses = 1 ∧
    stophealthCheck^[n] stopStateInit = stophealthCheck stopStateInit ∧
    (∀ s : StopState, s.healthCheckStopped = true → stophealthCheck s = s) ∧
    (∀ s : StopState, (stophealthCheck s).connCloses = s.connCloses) := by
  refine ⟨?_, stophealthCheck_iterate n h, stophealthCheck_noop, ?_⟩
  · rw [stophealthCheck_iterate n h]; rfl
  · intro s
    by_cases hs : s.healthCheckStopped = true <;> simp [stophealthCheck, hs]

/-- Witness for C5 at `n = 3`. -/
theorem stophealthCheck_idempotent_once_witness :
    (stophealthCheck^[3] stopStateInit).quitCloses = 1 ∧
    stophealthCheck^[3] stopStateInit = stophealthCheck stopStateInit ∧
    (∀ s : StopState, s.healthCheckStopped = true → stophealthCheck s = s) ∧
    (∀ s : StopState, (stophealthCheck s).connCloses = s.connCloses) :=
  stophealthCheck_idempotent_once 3 (by decide)

/-- Claim C4: a probe returning the sentinel `ErrInvalidConnectionState`
terminates the loop immediately, in any reachable loop state: for every
trace after which the loop is still running, appending a sentinel-failure
tick yields a returned state with the counter unchanged, no new error
report, no close ever issued, exactly one more probe, and any further
events change nothing. -/
theorem healthCheck_sentinel_terminates (connID : Nat) (opts : HealthCheckOptions)
    (events : List LoopEvent)
    (h : (healthCheck connID opts events).returned = false) :
    (healthCheck connID opts
        (events ++ [LoopEvent.tick PingResult.errInvalidConnectionState])).returned = true ∧
    (healthCheck connID opts
        (events ++ [LoopEvent.tick PingResult.errInvalidConnectionState])).consecutiveFailures =
      (healthCheck connID opts events).consecutiveFailures ∧
    (healthCheck connID opts
        (events ++ [LoopEvent.tick PingResult.errInvalidConnectionState])).reports =
      (healthCheck connID opts events).reports ∧
    (healthCheck connID opts
        (events ++ [LoopEvent.tick PingResult.errInvalidConnectionState])).closes = [] ∧
    (healthCheck connID opts
        (events ++ [LoopEvent.tick PingResult.errInvalidConnectionState])).probes =
      (healthCheck connID opts events).probes + 1 ∧
    ∀ more : List LoopEvent,
      healthCheck connID opts
          (events ++ [LoopEvent.tick PingResult.errInvalidConnectionState] ++ more) =
        healthCheck connID opts
          (events ++ [LoopEvent.tick PingResult.errInvalidConnectionState]) := by
  have hstep : healthCheck connID opts
      (events ++ [LoopEvent.tick PingResult.errInvalidConnectionState]) =
      healthCheckStep opts (healthCheck connID opts events)
        (LoopEvent.tick PingResult.errInvalidConnectionState) := by
    rw [healthCheck_append]; rfl
  have hclosed : (healthCheck connID opts events).closes = [] :=
    (stepInv_healthCheck connID opts events).2.1 h
  refine ⟨?_, ?_, ?_, ?_, ?_, ?_⟩
  · rw [hstep]; simp [healthCheckStep, h]
  · rw [hstep]; simp [healthCheckStep, h]
  · rw [hstep]; simp [healthCheckStep, h]
  · rw [hstep]; simp [healthCheckStep, h, hclosed]
  · rw [hstep]; simp [healthCheckStep, h]
  · intro more
    apply healthCheck_append_of_returned
    rw [hstep]; simp [healthCheckStep, h]

/-- Witness for C4: after one successful probe the loop is live; a sentinel
probe then terminates it with no report, no close, and an unchanged counter. -/
theorem healthCheck_sentinel_terminates_witness :
    (healthCheck 2 scenarioOpts
        ([LoopEvent.tick PingResult.ok] ++
          [LoopEvent.tick PingResult.errInvalidConnectionState])).returned = true ∧
    (healthCheck 2 scenarioOpts
        ([LoopEvent.tick PingResult.ok] ++
          [LoopEvent.tick PingResult.errInvalidConnectionState])).consecutiveFailures =
      (healthCheck 2 scenarioOpts [LoopEvent.tick PingResult.ok]).consecutiveFailures ∧
    (healthCheck 2 scenarioOpts
        ([LoopEvent.tick PingResult.ok] ++
          [LoopEvent.tick PingResult.errInvalidConnectionState])).reports =
      (healthCheck 2 scenarioOpts [LoopEvent.tick PingResult.ok]).reports ∧
    (healthCheck 2 scenarioOpts
        ([LoopEvent.tick PingResult.ok] ++
          [LoopEvent.tick PingResult.errInvalidConnectionState])).closes = [] ∧
    (healthCheck 2 scenarioOpts
        ([LoopEvent.tick PingResult.ok] ++
          [LoopEvent.tick PingResult.errInvalidConnectionState])).probes =
      (healthCheck 2 scenarioOpts [LoopEvent.tick PingResult.ok]).probes + 1 ∧
    ∀ more : List LoopEvent,
      healthCheck 2 scenarioOpts
          ([LoopEvent.tick PingResult.ok] ++
            [LoopEvent.tick PingResult.errInvalidConnectionState] ++ more) =
        healthCheck 2 scenarioOpts
          ([LoopEvent.tick PingResult.ok] ++
            [LoopEvent.tick PingResult.errInvalidConnectionState]) :=
  healthCheck_sentinel_terminates 2 scenarioOpts [LoopEvent.tick PingResult.ok] (by decide)

/-- Generalized counter lemma: starting from any live state, running a trace
of non-sentinel probe outcomes that never makes the loop return leaves the
counter equal to a left fold of the outcomes (reset to 0 on success,
incremented on failure) over the starting counter. -/
theorem counter_foldl (opts : HealthCheckOptions) (rs : List PingResult) :
    ∀ s : MState, s.returned = false →
    (∀ r ∈ rs, r ≠ PingResult.errInvalidConnectionState) →
    (List.foldl (healthCheckStep opts) s (rs.map LoopEvent.tick)).returned = false →
    (List.foldl (healthCheckStep opts) s (rs.map LoopEvent.tick)).consecutiveFailures =
      rs.foldl (fun acc r => if r = PingResult.ok then 0 else acc + 1)
        s.consecutiveFailures := by
  induction rs with
  | nil => intro s _ _ _; rfl
  | cons r rs ih =>
      intro s hret hns hnr
      rw [List.map_cons, List.foldl_cons] at hnr ⊢
      rw [List.foldl_cons]
      cases r with
      | ok =>
          have hs' : healthCheckStep opts s (LoopEvent.tick PingResult.ok) =
              { s with waits := s.waits ++ [s.pendingCancels]
                       pendingCancels := s.pendingCancels + 1
                       probes := s.probes + 1
                       consecutiveFailures := 0 } := by
            simp [healthCheckStep, hret]
          rw [hs'] at hnr ⊢
          have h0 := ih _ (by simpa using hret)
            (fun x hx => hns x (List.mem_cons_of_mem _ hx)) hnr
          simpa using h0
      | errInvalidConnectionState =>
          exact absurd rfl (hns _ (List.mem_cons_self _ _))
      | err m =>
          by_cases hF : s.consecutiveFailures + 1 ≥ opts.FailuresToClose
          · exfalso
            have hs' : healthCheckStep opts s (LoopEvent.tick (PingResult.err m)) =
                { s with waits := s.waits ++ [s.pendingCancels]
                         pendingCancels := s.pendingCancels + 1
                         probes := s.probes + 1
                         reports := s.reports ++ ["healthCheck failed: " ++ m]
                         consecutiveFailures := s.consecutiveFailures + 1
                         closes := s.closes ++ [("health check failure", m)]
                         tickerStopped := true
                         returned := true } := by
              simp [healthCheckStep, hret, hF]
            rw [hs', foldl_healthCheckStep_of_returned opts _ rfl] at hnr
            simp at hnr
          · have hs' : healthCheckStep opts s (LoopEvent.tick (PingResult.err m)) =
                { s with waits := s.waits ++ [s.pendingCancels]
                         pendingCancels := s.pendingCancels + 1
                         probes := s.probes + 1
                         reports := s.reports ++ ["healthCheck failed: " ++ m]
                         consecutiveFailures := s.consecutiveFailures + 1 } := by
              simp [healthCheckStep, hret, hF]
            rw [hs'] at hnr ⊢
            have h0 := ih _ (by simpa using hret)
              (fun x hx => hns x (List.mem_cons_of_mem _ hx)) hnr
            simpa using h0

/-- The `Int`-valued counter fold agrees with the `Nat`-valued trailing-run
fold under the coercion. -/
theorem counter_foldl_cast (rs : List PingResult) :
    ∀ a : Nat,
      rs.foldl (fun (acc : Int) r => if r = PingResult.ok then 0 else acc + 1) (a : Int) =
        ((rs.foldl (fun (acc : Nat) r => if r = PingResult.ok then 0 else acc + 1) a : Nat) :
          Int) := by
  induction rs with
  | nil => intro a; rfl
  | cons r rs ih =>
      intro a
      rw [List.foldl_cons, List.foldl_cons]
      by_cases hr : r = PingResult.ok
      · have h0 := ih 0
        simp only [hr, if_pos rfl]
        simpa using h0
      · have h1 := ih (a + 1)
        simp only [if_neg hr]
        rw [← h1]
        push_cast
        rfl

/-- Claim C3: for every finite trace of non-sentinel probe outcomes after
which the loop is still running (in particular the threshold was never
reached), `consecutiveFailures` equals the length of the trailing run of
failures since the most recent success, or since the start if no success
occurred; a single success resets it to exactly 0.  Concretely, with
`failuresToClose = 3` and outcomes fail, fail, success, fail, fail, fail,
the counter takes the values 1, 2, 0, 1, 2, 3 and the connection is closed
exactly once, after the sixth probe. -/
theorem healthCheck_counter_spec :
    (∀ (opts : HealthCheckOptions) (connID : Nat) (rs : List PingResult),
      (∀ r ∈ rs, r ≠ PingResult.errInvalidConnectionState) →
      (healthCheck connID opts (rs.map LoopEvent.tick)).returned = false →
      (healthCheck connID opts (rs.map LoopEvent.tick)).consecutiveFailures =
        (trailingFailures rs : Int)) ∧
    ((List.range 6).map (fun i =>
        (healthCheck 7 scenarioOpts (scenarioEvents.take (i + 1))).consecutiveFailures) =
      [1, 2, 0, 1, 2, 3]) ∧
    (healthCheck 7 scenarioOpts scenarioEvents).closes =
      [("health check failure", "e5")] ∧
    (healthCheck 7 scenarioOpts (scenarioEvents.take 5)).closes = [] ∧
    (healthCheck 7 scenarioOpts scenarioEvents).probes = 6 := by
  refine ⟨?_, by decide, by decide, by decide, by decide⟩
  intro opts connID rs hns hnr
  have h := counter_foldl opts rs healthCheckInit rfl hns hnr
  have hcast := counter_foldl_cast rs 0
  simp only [healthCheck] at *
  rw [h]
  simpa [healthCheckInit, trailingFailures] using hcast

/-- Witness for C3 on the first five scenario outcomes (the loop is still
running there): the counter equals the trailing failure run, namely 2. -/
theorem healthCheck_counter_spec_witness :
    (healthCheck 7 scenarioOpts
        ((scenarioOutcomes.take 5).map LoopEvent.tick)).consecutiveFailures =
      (trailingFailures (scenarioOutcomes.take 5) : Int) :=
  healthCheck_counter_spec.1 scenarioOpts 7 (scenarioOutcomes.take 5) (by decide) (by decide)

/-- If event `i` is a non-sentinel probe failure, the loop is still running
just before it, and the incremented counter meets the threshold, then the
run closes the connection with reason `"health check failure"` and the
triggering error, and terminates there: the whole trace is equivalent to its
first `i + 1` events. -/
theorem healthCheck_close_at_trigger (connID : Nat) (opts : HealthCheckOptions)
    (events : List LoopEvent) (i : Nat) (m : String)
    (hg : events[i]? = some (LoopEvent.tick (PingResult.err m)))
    (hr : (healthCheck connID opts (events.take i)).returned = false)
    (hF : opts.FailuresToClose ≤
      (healthCheck connID opts (events.take i)).consecutiveFailures + 1) :
    (healthCheck connID opts events).closes = [("health check failure", m)] ∧
    healthCheck connID opts events = healthCheck connID opts (events.take (i + 1)) := by
  have htake : events.take (i + 1) =
      events.take i ++ [LoopEvent.tick (PingResult.err m)] := by
    rw [List.take_succ, hg]; rfl
  have hclosed : (healthCheck connID opts (events.take i)).closes = [] :=
    (stepInv_healthCheck connID opts (events.take i)).2.1 hr
  have hstep : healthCheck connID opts (events.take (i + 1)) =
      healthCheckStep opts (healthCheck connID opts (events.take i))
        (LoopEvent.tick (PingResult.err m)) := by
    rw [htake, healthCheck_append]; rfl
  have hcloseval : (healthCheck connID opts (events.take (i + 1))).closes =
      [("health check failure", m)] := by
    rw [hstep]; simp [healthCheckStep, hr, hF, hclosed]
  have hret1 : (healthCheck connID opts (events.take (i + 1))).returned = true := by
    rw [hstep]; simp [healthCheckStep, hr, hF]
  have hev : healthCheck connID opts events =
      healthCheck connID opts (events.take (i + 1)) := by
    conv_lhs => rw [← List.take_append_drop (i + 1) events]
    exact healthCheck_append_of_returned connID opts _ _ hret1
  exact ⟨by rw [hev, hcloseval], hev⟩

/-- Conversely, if a run ever closes the connection there is an event index
at which a non-sentinel probe failure pushed the live counter to the
threshold. -/
theorem healthCheck_closes_trigger (connID : Nat) (opts : HealthCheckOptions) :
    ∀ events : List LoopEvent, (healthCheck connID opts events).closes ≠ [] →
    ∃ i : Nat, ∃ m : String,
      events[i]? = some (LoopEvent.tick (PingResult.err m)) ∧
      (healthCheck connID opts (events.take i)).returned = false ∧
      opts.FailuresToClose ≤
        (healthCheck connID opts (events.take i)).consecutiveFailures + 1 := by
  intro events
  induction events using List.reverseRecOn with
  | nil => intro h; exact absurd rfl h
  | append_singleton l e ih =>
      intro h
      by_cases hret : (healthCheck connID opts l).returned = true
      · rw [healthCheck_append_of_returned connID opts l [e] hret] at h
        obtain ⟨i, m, hg, hr, hF⟩ := ih h
        have hi : i < l.length := (List.getElem?_eq_some.mp hg).1
        refine ⟨i, m, ?_, ?_, ?_⟩
        · rw [List.getElem?_append_left hi]; exact hg
        · rw [List.take_append_of_le_length (le_of_lt hi)]; exact hr
        · rw [List.take_append_of_le_length (le_of_lt hi)]; exact hF
      · replace hret : (healthCheck connID opts l).returned = false := by simpa using hret
        have hclosed : (healthCheck connID opts l).closes = [] :=
          (stepInv_healthCheck connID opts l).2.1 hret
        have hstep : healthCheck connID opts (l ++ [e]) =
            healthCheckStep opts (healthCheck connID opts l) e := by
          rw [healthCheck_append]; rfl
        rw [hstep] at h
        have htake : (l ++ [e]).take l.length = l := List.take_left l [e]
        cases e with
        | quit => simp [healthCheckStep, hret, hclosed] at h
        | tick r =>
            cases r with
            | ok => simp [healthCheckStep, hret, hclosed] at h
            | errInvalidConnectionState => simp [healthCheckStep, hret, hclosed] at h
            | err m =>
                by_cases hF : (healthCheck connID opts l).consecutiveFailures + 1 ≥
                    opts.FailuresToClose
                · refine ⟨l.length, m, List.getElem?_concat_length l _, ?_, ?_⟩
                  · rw [htake]; exact hret
                  · rw [htake]; exact hF
                · simp [healthCheckStep, hret, hF, hclosed] at h

/-- Claim C2: for every trace of probe outcomes, the monitor calls `c.close`
iff at some event a non-sentinel probe failure pushes the live
`consecutiveFailures` counter to the configured `FailuresToClose`; it never
closes on a shorter failure streak (the only-if direction), it closes at
most once per run, every close carries the reason `"health check failure"`
together with the triggering error, and the loop terminates immediately
after issuing the close (the run equals the run truncated at the closing
event). -/
theorem healthCheck_close_iff (connID : Nat) (opts : HealthCheckOptions)
    (events : List LoopEvent) :
    (healthCheck connID opts events).closes.length ≤ 1 ∧
    (∀ p ∈ (healthCheck connID opts events).closes, p.1 = "health check failure") ∧
    ((healthCheck connID opts events).closes ≠ [] ↔
      ∃ i : Nat, ∃ m : String,
        events[i]? = some (LoopEvent.tick (PingResult.err m)) ∧
        (healthCheck connID opts (events.take i)).returned = false ∧
        opts.FailuresToClose ≤
          (healthCheck connID opts (events.take i)).consecutiveFailures + 1) ∧
    (∀ (i : Nat) (m : String),
        events[i]? = some (LoopEvent.tick (PingResult.err m)) →
        (healthCheck connID opts (events.take i)).returned = false →
        opts.FailuresToClose ≤
          (healthCheck connID opts (events.take i)).consecutiveFailures + 1 →
        (healthCheck connID opts events).closes = [("health check failure", m)] ∧
        healthCheck connID opts events = healthCheck connID opts (events.take (i + 1))) := by
  refine ⟨(stepInv_healthCheck connID opts events).2.2.1,
          (stepInv_healthCheck connID opts events).2.2.2, ?_, ?_⟩
  · constructor
    · exact healthCheck_closes_trigger connID opts events
    · rintro ⟨i, m, hg, hr, hF⟩
      rw [(healthCheck_close_at_trigger connID opts events i m hg hr hF).1]
      simp
  · intro i m hg hr hF
    exact healthCheck_close_at_trigger connID opts events i m hg hr hF

/-- Witness for C2 on the worked scenario: event 5 is the third consecutive
failure after the last success with threshold 3; applying the theorem there
yields the single close with the triggering error and the truncation
equation. -/
theorem healthCheck_close_iff_witness :
    (healthCheck 7 scenarioOpts scenarioEvents).closes =
      [("health check failure", "e5")] ∧
    healthCheck 7 scenarioOpts scenarioEvents =
      healthCheck 7 scenarioOpts (scenarioEvents.take 6) :=
  (healthCheck_close_iff 7 scenarioOpts scenarioEvents).2.2.2 5 "e5"
    (by decide) (by decide) (by decide)

/-- Witness for C7 at a config with `Interval = 0` and nonzero other fields:
`enabled` is `false`. -/
theorem enabled_iff_interval_pos_witness :
    ({ Interval := 0, Timeout := 7, FailuresToClose := 2 } : HealthCheckOptions).enabled =
      false :=
  (enabled_iff_interval_pos
    { Interval := 0, Timeout := 7, FailuresToClose := 2 }).2 rfl
